import Mathlib

/-!
Shallow embedding of the frame-rebinning engine of `labelling-2d/rebin_frames.py`
(channel grouping, `rebin_sum`, `rebin_track_first_second`, and the
`HDF5FrameProcessor.process` pipeline) together with the channel inverse map
`determine_anode_plane` of `labelling-2d/plot_rebinned_channels.py`.

Arrays are modelled as a shape plus a total entry function; entries outside the
shape are junk that the embedded code never reads.  Python integers are `Int`
(`Nat` for indices and factors), Python `dict`s of frames are association lists
in insertion order, and the pipeline's abort paths (printed error plus `False`
return, `KeyError`, `ZeroDivisionError`, `IndexError`) are an explicit
`Except` error type.
-/

/-- A 2D numpy array of shape `(nrows, ncols)` with integer entries. -/
structure Arr2 where
  nrows : Nat
  ncols : Nat
  entry : Nat → Nat → Int

/-- numpy `.shape` of a 2D array. -/
def Arr2.shape (a : Arr2) : Nat × Nat := (a.nrows, a.ncols)

/-- numpy `np.sort` on a 1-D integer array, ascending. -/
def npsort (l : List Nat) : List Nat := l.mergeSort (fun a b => decide (a ≤ b))

/-- The base channel sequence `cru0` built in
`AnodesChannelGrouping.get_anode_channels`:
`np.concatenate([arange(0, 476), arange(952, 1428), arange(1904, 2488)])`. -/
def cru0base : List Nat :=
  List.range' 0 476 ++ List.range' 952 476 ++ List.range' 1904 584

/-- The base channel sequence `cru1` built in
`AnodesChannelGrouping.get_anode_channels`:
`np.concatenate([arange(476, 952), arange(1428, 1904), arange(2488, 3072)])`. -/
def cru1base : List Nat :=
  List.range' 476 476 ++ List.range' 1428 476 ++ List.range' 2488 584

/-- Embeds `AnodesChannelGrouping.get_anode_channels`:
`crp = (n - n % 2) // 2`; pick `cru0` for even `n` else `cru1`;
return `channels + 3072 * crp`. -/
def get_anode_channels (n : Nat) : List Nat :=
  (if n % 2 = 0 then cru0base else cru1base).map
    (fun c => c + 3072 * ((n - n % 2) / 2))

/-- Embeds `AnodesChannelGrouping.get_anode_planes`, plane `p` (0=U, 1=V, 2=W)
of `anode_id`.  Even anodes (CRU0) use `arange(0,476) / arange(952,1428) /
arange(1904,2488)`, odd anodes (CRU1) use `arange(476,951) / arange(1428,1903) /
arange(2488,3071)`, each shifted by `3072 * (anode_id // 2)` and passed through
`np.sort`. -/
def get_anode_planes (anode_id p : Nat) : List Nat :=
  if anode_id % 2 = 0 then
    match p with
    | 0 => npsort ((List.range' 0 476).map (fun c => c + 3072 * (anode_id / 2)))
    | 1 => npsort ((List.range' 952 476).map (fun c => c + 3072 * (anode_id / 2)))
    | 2 => npsort ((List.range' 1904 584).map (fun c => c + 3072 * (anode_id / 2)))
    | _ => []
  else
    match p with
    | 0 => npsort ((List.range' 476 475).map (fun c => c + 3072 * (anode_id / 2)))
    | 1 => npsort ((List.range' 1428 475).map (fun c => c + 3072 * (anode_id / 2)))
    | 2 => npsort ((List.range' 2488 583).map (fun c => c + 3072 * (anode_id / 2)))
    | _ => []

/-- Embeds `RebinnedChannelPlotter.determine_anode_plane` of
`plot_rebinned_channels.py`: `crp = channel // 3072`,
`ch_in_crp = channel % 3072`, then the six-way half-open range dispatch;
`anode_id = crp * 2 + cru`. -/
def determine_anode_plane (channel : Nat) : Nat × Nat × Nat :=
  if channel % 3072 < 476 then (channel / 3072 * 2, 0, channel % 3072)
  else if channel % 3072 < 952 then (channel / 3072 * 2 + 1, 0, channel % 3072 - 476)
  else if channel % 3072 < 1428 then (channel / 3072 * 2, 1, channel % 3072 - 952)
  else if channel % 3072 < 1904 then (channel / 3072 * 2 + 1, 1, channel % 3072 - 1428)
  else if channel % 3072 < 2488 then (channel / 3072 * 2, 2, channel % 3072 - 1904)
  else (channel / 3072 * 2 + 1, 2, channel % 3072 - 2488)

/-- Embeds `FrameRebinner.rebin_sum`: truncating reshape-and-sum, first over
channel blocks of size `rebin_channel`, then over time blocks of size
`rebin_time`.  Output shape `(nrows / rebin_channel, ncols / rebin_time)`. -/
def rebin_sum (data : Arr2) (rebin_time rebin_channel : Nat) : Arr2 :=
  { nrows := data.nrows / rebin_channel,
    ncols := data.ncols / rebin_time,
    entry := fun i j =>
      ∑ s ∈ Finset.range rebin_time,
        ∑ r ∈ Finset.range rebin_channel,
          data.entry (i * rebin_channel + r) (j * rebin_time + s) }

/-- The `contributions` list collected by the inner loops of
`FrameRebinner.rebin_track_first_second` for output bin `(i, j)`:
channels `ch_start ≤ ch < min (ch_start + rebin_channel) nrows` (outer loop),
ticks likewise (inner loop), appending the 1st-array pair and then the
2nd-array pair of each cell, keeping only pairs with charge `> 0`. -/
def binContributions (data_1st data_2nd charge_1st charge_2nd : Arr2)
    (rebin_time rebin_channel i j : Nat) : List (Int × Int) :=
  (List.range' (i * rebin_channel)
      (min (i * rebin_channel + rebin_channel) data_1st.nrows - i * rebin_channel)).flatMap
    fun ch =>
      (List.range' (j * rebin_time)
          (min (j * rebin_time + rebin_time) data_1st.ncols - j * rebin_time)).flatMap
        fun tick =>
          (if 0 < charge_1st.entry ch tick then
            [(charge_1st.entry ch tick, data_1st.entry ch tick)] else []) ++
          (if 0 < charge_2nd.entry ch tick then
            [(charge_2nd.entry ch tick, data_2nd.entry ch tick)] else [])

/-- Python `contributions.sort(key=lambda x: x[0], reverse=True)`:
a stable sort by charge descending. -/
def sortByChargeDesc (l : List (Int × Int)) : List (Int × Int) :=
  l.mergeSort (fun a b => decide (b.1 ≤ a.1))

/-- Embeds `FrameRebinner.rebin_track_first_second`: both outputs are
zero-initialised arrays of shape `(nrows / rebin_channel, ncols / rebin_time)`;
each bin gets the label of the highest-charge contribution (first output) and
of the second-highest-charge contribution (second output), when present. -/
def rebin_track_first_second (data_1st data_2nd charge_1st charge_2nd : Arr2)
    (rebin_time rebin_channel : Nat) : Arr2 × Arr2 :=
  ({ nrows := data_1st.nrows / rebin_channel,
     ncols := data_1st.ncols / rebin_time,
     entry := fun i j =>
       match sortByChargeDesc (binContributions data_1st data_2nd charge_1st
           charge_2nd rebin_time rebin_channel i j) with
       | [] => 0
       | p :: _ => p.2 },
   { nrows := data_1st.nrows / rebin_channel,
     ncols := data_1st.ncols / rebin_time,
     entry := fun i j =>
       match sortByChargeDesc (binContributions data_1st data_2nd charge_1st
           charge_2nd rebin_time rebin_channel i j) with
       | _ :: q :: _ => q.2
       | _ => 0 })

/-- Spec-side reading of `rebin_sum` ("partitions the truncated array into
non-overlapping `rebin_channel × rebin_time` blocks and replaces each block
with the scalar sum of its elements"): the sum of input block `(i, j)`. -/
def blockSum (data : Arr2) (rebin_time rebin_channel i j : Nat) : Int :=
  ∑ r ∈ Finset.range rebin_channel,
    ∑ s ∈ Finset.range rebin_time,
      data.entry (i * rebin_channel + r) (j * rebin_time + s)

/-- Spec-side reading of the per-block collection step of
`rebin_track_first_second`: every `(charge, label)` pair from both the 1st and
2nd arrays over all cells of the (untruncated) `rebin_channel × rebin_time`
block `(i, j)` whose charge is strictly positive. -/
def spec_block_pairs (data_1st data_2nd charge_1st charge_2nd : Arr2)
    (rebin_time rebin_channel i j : Nat) : List (Int × Int) :=
  (List.range' (i * rebin_channel) rebin_channel).flatMap fun ch =>
    (List.range' (j * rebin_time) rebin_time).flatMap fun tick =>
      (if 0 < charge_1st.entry ch tick then
        [(charge_1st.entry ch tick, data_1st.entry ch tick)] else []) ++
      (if 0 < charge_2nd.entry ch tick then
        [(charge_2nd.entry ch tick, data_2nd.entry ch tick)] else [])

/-- The label of the highest-charge pair of a charge-descending sorted list,
`0` if the list is empty. -/
def firstLabel : List (Int × Int) → Int
  | [] => 0
  | p :: _ => p.2

/-- The label of the second-highest-charge pair of a charge-descending sorted
list, `0` if the list has fewer than two pairs. -/
def secondLabel : List (Int × Int) → Int
  | _ :: q :: _ => q.2
  | _ => 0

/-- numpy elementwise `A + B` of two same-shaped arrays (left shape kept). -/
def addFrames (A B : Arr2) : Arr2 :=
  { nrows := A.nrows, ncols := A.ncols,
    entry := fun i j => A.entry i j + B.entry i j }

/-- The 4-channel by 4-tick all-ones test frame of the end-to-end scenario. -/
def onesFrame44 : Arr2 := { nrows := 4, ncols := 4, entry := fun _ _ => 1 }

/-- A Python `dict` of named frames, as an association list in insertion
order (keys unique). -/
abbrev Frames : Type := List (String × Arr2)

/-- Python `frames[key]` presence / lookup. -/
def lookupF (frames : Frames) (key : String) : Option Arr2 :=
  (List.find? (fun kv => kv.1 == key) frames).map (fun kv => kv.2)

/-- Python `{**frames_rec, **frames_tru}`: keys of `rec` first (values
overridden by a same-named `tru` entry), then the `tru`-only keys. -/
def mergeFrames (rec tru : Frames) : Frames :=
  List.map (fun kv => (kv.1, (lookupF tru kv.1).getD kv.2)) rec ++
    List.filter (fun kv => (lookupF rec kv.1).isNone) tru

/-- The loop of `HDF5FrameProcessor.verify_dimensions`, carrying
`first_shape` (`none` before the first frame is seen). -/
def verifyLoop : Option (Nat × Nat) → List (String × Arr2) → Bool
  | _, [] => true
  | none, (_, d) :: rest => verifyLoop (some d.shape) rest
  | some s, (_, d) :: rest =>
      if d.shape = s then verifyLoop (some s) rest else false

/-- Embeds `HDF5FrameProcessor.verify_dimensions`: `True` iff all frames share
one common shape (vacuously `True` on an empty dict). -/
def verify_dimensions (frames : Frames) : Bool := verifyLoop none frames

/-- The report printed by `verify_dimensions` on failure
(`ERROR: {name} has shape {shape}, expected {first_shape}`): the first
offending frame's name, its shape, and the expected (first) shape. -/
def firstMismatch : Option (Nat × Nat) → List (String × Arr2) →
    Option (String × (Nat × Nat) × (Nat × Nat))
  | _, [] => none
  | none, (_, d) :: rest => firstMismatch (some d.shape) rest
  | some s, (n, d) :: rest =>
      if d.shape = s then firstMismatch (some s) rest else some (n, d.shape, s)

/-- The abort paths of `HDF5FrameProcessor.process`: the dimension-mismatch
report-and-return-False path, Python `KeyError` on a missing dict key, Python
`ZeroDivisionError` from `// 0`, and Python `IndexError` on `[0]` of an empty
list. -/
inductive ProcError where
  | shapeMismatch (name : String) (got expected : Nat × Nat)
  | keyError (key : String)
  | zeroDivision
  | indexError
deriving DecidableEq

/-- The in-range row gather underlying numpy's `frame[plane_channels, :]`. -/
def sliceRows (a : Arr2) (chans : List Nat) : Arr2 :=
  { nrows := chans.length, ncols := a.ncols,
    entry := fun i t => a.entry (chans.getD i 0) t }

/-- numpy row fancy-indexing `frame[plane_channels, :]`: raises `IndexError`
when any channel index is out of bounds for the frame's rows, else gathers
the selected rows. -/
def sliceRowsE (a : Arr2) (chans : List Nat) : Except ProcError Arr2 :=
  if ∀ c ∈ chans, c < a.nrows then .ok (sliceRows a chans)
  else .error .indexError

/-- Python `frames[key]`: the frame when the key is present, else `KeyError`. -/
def getFrame (frames : Frames) (key : String) : Except ProcError Arr2 :=
  match lookupF frames key with
  | some a => .ok a
  | none => .error (.keyError key)

/-- The `frame_gauss` block of the per-plane loop of `process`: note the code
tests the key `'frame_gauss'` against `frames_rec`, whose keys already had
their `frame_` prefixes stripped at load time. -/
def processGauss (rec : Frames) (rebin_time rebin_channel : Nat)
    (chans : List Nat) (planeKey : String) :
    Except ProcError (List (String × Arr2)) :=
  match lookupF rec "frame_gauss" with
  | none => .ok []
  | some g => do
      let gs ← sliceRowsE g chans
      if rebin_channel = 0 ∨ rebin_time = 0 then Except.error .zeroDivision
      else Except.ok [(planeKey ++ "_gauss", rebin_sum gs rebin_time rebin_channel)]

/-- One named-label-kind block of the per-plane loop of `process` (the
`orig_trackid` / `orig_pid` / `current_pid` blocks are identical up to the
kind name): guarded only by presence of `{kind}_1st`; then the code fetches
and row-slices, in source order, `charge_1st`, `charge_2nd`, the already
present `{kind}_1st`, and `{kind}_2nd` — a missing dict key raises `KeyError`
and an out-of-range plane channel raises `IndexError` at the slice. -/
def processKind (tru : Frames) (kind : String) (rebin_time rebin_channel : Nat)
    (chans : List Nat) (planeKey : String) :
    Except ProcError (List (String × Arr2)) :=
  match lookupF tru (kind ++ "_1st") with
  | none => .ok []
  | some d1 => do
      let c1 ← getFrame tru "charge_1st"
      let c1s ← sliceRowsE c1 chans
      let c2 ← getFrame tru "charge_2nd"
      let c2s ← sliceRowsE c2 chans
      let d1s ← sliceRowsE d1 chans
      let d2 ← getFrame tru (kind ++ "_2nd")
      let d2s ← sliceRowsE d2 chans
      if rebin_channel = 0 ∨ rebin_time = 0 then Except.error .zeroDivision
      else
        Except.ok [(planeKey ++ "_" ++ kind ++ "_1st",
                     (rebin_track_first_second d1s d2s c1s c2s
                       rebin_time rebin_channel).1),
                   (planeKey ++ "_" ++ kind ++ "_2nd",
                     (rebin_track_first_second d1s d2s c1s c2s
                       rebin_time rebin_channel).2)]

/-- The `charge` block of the per-plane loop of `process`: guarded by presence
of `charge_1st`; `charge_2nd` is indexed unconditionally; both are rebinned
with plain `rebin_sum`. -/
def processCharge (tru : Frames) (rebin_time rebin_channel : Nat)
    (chans : List Nat) (planeKey : String) :
    Except ProcError (List (String × Arr2)) :=
  match lookupF tru "charge_1st" with
  | none => .ok []
  | some c1 => do
      let c1s ← sliceRowsE c1 chans
      let c2 ← getFrame tru "charge_2nd"
      let c2s ← sliceRowsE c2 chans
      if rebin_channel = 0 ∨ rebin_time = 0 then Except.error .zeroDivision
      else
        Except.ok [(planeKey ++ "_charge_1st",
                     rebin_sum c1s rebin_time rebin_channel),
                   (planeKey ++ "_charge_2nd",
                     rebin_sum c2s rebin_time rebin_channel)]

/-- One `(anode_id, plane_id)` iteration of the aggregation loop of
`process`, in source order: gauss, `orig_trackid`, `orig_pid`, `current_pid`,
charge. -/
def processPlane (rec tru : Frames) (rebin_time rebin_channel a p : Nat) :
    Except ProcError (List (String × Arr2)) := do
  let chans := get_anode_planes a p
  let planeKey := "anode" ++ toString a ++ "_plane" ++ toString p
  let g ← processGauss rec rebin_time rebin_channel chans planeKey
  let k1 ← processKind tru "orig_trackid" rebin_time rebin_channel chans planeKey
  let k2 ← processKind tru "orig_pid" rebin_time rebin_channel chans planeKey
  let k3 ← processKind tru "current_pid" rebin_time rebin_channel chans planeKey
  let k4 ← processCharge tru rebin_time rebin_channel chans planeKey
  .ok (g ++ k1 ++ k2 ++ k3 ++ k4)

/-- The `for anode_id in range(8): for plane_id in range(3):` aggregation loop
of `process`, accumulating the `rebinned_data` mapping in insertion order. -/
def processAll (rec tru : Frames) (rebin_time rebin_channel : Nat) :
    Except ProcError (List (String × Arr2)) :=
  (List.range 8).foldlM
    (fun acc a =>
      (List.range 3).foldlM
        (fun acc2 p => do
          let outs ← processPlane rec tru rebin_time rebin_channel a p
          .ok (acc2 ++ outs))
        acc)
    []

/-- Embeds `HDF5FrameProcessor.process` after frame loading: merge the two
frame dicts, verify dimensions (abort with the printed mismatch report and a
`False` return), read the first frame's shape (Python `IndexError` when the
merged dict is empty), then run the aggregation loop. -/
def processModel (rec tru : Frames) (rebin_time rebin_channel : Nat) :
    Except ProcError (List (String × Arr2)) :=
  match firstMismatch none (mergeFrames rec tru) with
  | some (n, got, expected) => .error (.shapeMismatch n got expected)
  | none =>
      match mergeFrames rec tru with
      | [] => .error .indexError
      | _ :: _ => processAll rec tru rebin_time rebin_channel

lemma pairwise_lt_cru0base : List.Pairwise (· < ·) cru0base := by
  simp only [cru0base, List.pairwise_append, List.mem_append, List.mem_range'_1]
  refine ⟨⟨List.pairwise_lt_range' 0 476, List.pairwise_lt_range' 952 476, ?_⟩,
    List.pairwise_lt_range' 1904 584, ?_⟩
  · intro a ha b hb; omega
  · intro a ha b hb; rcases ha with ha | ha <;> omega

lemma pairwise_lt_cru1base : List.Pairwise (· < ·) cru1base := by
  simp only [cru1base, List.pairwise_append, List.mem_append, List.mem_range'_1]
  refine ⟨⟨List.pairwise_lt_range' 476 476, List.pairwise_lt_range' 1428 476, ?_⟩,
    List.pairwise_lt_range' 2488 584, ?_⟩
  · intro a ha b hb; omega
  · intro a ha b hb; rcases ha with ha | ha <;> omega

/-- C2: `rebin_sum` has output shape
`(n_channels // rebin_channel, n_ticks // rebin_time)`, each output cell is
the sum of the corresponding non-overlapping `rebin_channel × rebin_time`
block of the (truncated) input, and the 4×4 all-ones frame rebinned by
factors 2 and 2 yields a 2×2 array of all 4s. -/
theorem rebin_sum_matches_blockSum (data : Arr2) (rebin_time rebin_channel : Nat)
    (_ht : 0 < rebin_time) (_hc : 0 < rebin_channel) :
    (rebin_sum data rebin_time rebin_channel).nrows = data.nrows / rebin_channel ∧
    (rebin_sum data rebin_time rebin_channel).ncols = data.ncols / rebin_time ∧
    (∀ i j, (rebin_sum data rebin_time rebin_channel).entry i j
        = blockSum data rebin_time rebin_channel i j) ∧
    ((rebin_sum onesFrame44 2 2).shape = (2, 2) ∧
      ∀ i < 2, ∀ j < 2, (rebin_sum onesFrame44 2 2).entry i j = 4) := by
  refine ⟨rfl, rfl, ?_, rfl, ?_⟩
  · intro i j
    simp only [rebin_sum, blockSum]
    exact Finset.sum_comm
  · decide

/-- Witness for C2 at the all-ones 4×4 frame with both factors 2. -/
theorem rebin_sum_matches_blockSum_witness :
    0 < 2 ∧
    ((rebin_sum onesFrame44 2 2).nrows = onesFrame44.nrows / 2 ∧
     (rebin_sum onesFrame44 2 2).ncols = onesFrame44.ncols / 2 ∧
     (∀ i j, (rebin_sum onesFrame44 2 2).entry i j = blockSum onesFrame44 2 2 i j) ∧
     ((rebin_sum onesFrame44 2 2).shape = (2, 2) ∧
       ∀ i < 2, ∀ j < 2, (rebin_sum onesFrame44 2 2).entry i j = 4)) :=
  ⟨by decide, rebin_sum_matches_blockSum onesFrame44 2 2 (by decide) (by decide)⟩

/-- C5: `rebin_sum` is linear: rebinning the elementwise sum of two
same-shaped integer frames equals the elementwise sum of the two rebinned
frames, with equal output shapes. -/
theorem rebin_sum_linear (A B : Arr2) (rebin_time rebin_channel : Nat)
    (_ht : 0 < rebin_time) (_hc : 0 < rebin_channel)
    (hrows : A.nrows = B.nrows) (hcols : A.ncols = B.ncols) :
    (rebin_sum (addFrames A B) rebin_time rebin_channel).shape
        = (rebin_sum A rebin_time rebin_channel).shape ∧
    (rebin_sum (addFrames A B) rebin_time rebin_channel).shape
        = (rebin_sum B rebin_time rebin_channel).shape ∧
    ∀ i j, (rebin_sum (addFrames A B) rebin_time rebin_channel).entry i j
        = (rebin_sum A rebin_time rebin_channel).entry i j
          + (rebin_sum B rebin_time rebin_channel).entry i j := by
  refine ⟨rfl, ?_, ?_⟩
  · simp [Arr2.shape, rebin_sum, addFrames, hrows, hcols]
  · intro i j
    simp [rebin_sum, addFrames, Finset.sum_add_distrib]

/-- Witness for C5 at two concrete same-shaped 2×2 frames with factors 1. -/
theorem rebin_sum_linear_witness :
    0 < 1 ∧ onesFrame44.nrows = onesFrame44.nrows ∧
    ((rebin_sum (addFrames onesFrame44 onesFrame44) 1 1).shape
        = (rebin_sum onesFrame44 1 1).shape ∧
     (rebin_sum (addFrames onesFrame44 onesFrame44) 1 1).shape
        = (rebin_sum onesFrame44 1 1).shape ∧
     ∀ i j, (rebin_sum (addFrames onesFrame44 onesFrame44) 1 1).entry i j
        = (rebin_sum onesFrame44 1 1).entry i j
          + (rebin_sum onesFrame44 1 1).entry i j) :=
  ⟨by decide, rfl,
    rebin_sum_linear onesFrame44 onesFrame44 1 1 (by decide) (by decide) rfl rfl⟩

/-- C4 counterexample: `get_anode_channels 0` has 1536 elements, not 1428 as
the claim states. -/
theorem get_anode_channels_zero_length_ne_1428 :
    (get_anode_channels 0).length = 1536 ∧ (get_anode_channels 0).length ≠ 1428 := by
  have h : (get_anode_channels 0).length = 1536 := by
    simp [get_anode_channels, cru0base]
  exact ⟨h, by omega⟩

/-- C4 as amended (1536 elements instead of 1428): for every anode in 0..7,
`get_anode_channels` returns a strictly ascending sequence of exactly 1536
global channel indices equal to the even-parity base ranges
`[0,476) ∪ [952,1428) ∪ [1904,2488)` or the odd-parity base ranges
`[476,952) ∪ [1428,1904) ∪ [2488,3072)` shifted by `3072 * (anode_id / 2)`. -/
theorem get_anode_channels_spec (n : Nat) (_hn : n < 8) :
    (get_anode_channels n).length = 1536 ∧
    List.Pairwise (· < ·) (get_anode_channels n) ∧
    get_anode_channels n =
      (if n % 2 = 0 then cru0base else cru1base).map
        (fun c => c + 3072 * (n / 2)) := by
  have hcrp : (n - n % 2) / 2 = n / 2 := by omega
  have hlen0 : cru0base.length = 1536 := by simp [cru0base]
  have hlen1 : cru1base.length = 1536 := by simp [cru1base]
  have hpw : List.Pairwise (· < ·) (if n % 2 = 0 then cru0base else cru1base) := by
    rcases Nat.mod_two_eq_zero_or_one n with h | h <;> simp only [h] <;> norm_num
    · exact pairwise_lt_cru0base
    · exact pairwise_lt_cru1base
  refine ⟨?_, ?_, ?_⟩
  · rcases Nat.mod_two_eq_zero_or_one n with h | h <;>
      simp [get_anode_channels, h, hlen0, hlen1]
  · exact List.Pairwise.map _ (fun a b hab => by omega) hpw
  · simp [get_anode_channels, hcrp]

/-- Witness for the amended C4 at anode 0. -/
theorem get_anode_channels_spec_witness :
    0 < 8 ∧
    ((get_anode_channels 0).length = 1536 ∧
     List.Pairwise (· < ·) (get_anode_channels 0) ∧
     get_anode_channels 0 =
       (if 0 % 2 = 0 then cru0base else cru1base).map
         (fun c => c + 3072 * (0 / 2))) :=
  ⟨by decide, get_anode_channels_spec 0 (by decide)⟩

/-- C10: on two empty input collections, `verify_dimensions` returns `True`
and `process` then fails with an `IndexError` while reading the first frame's
shape, before any anode iteration: a non-empty combined frame collection is a
precondition for `process` to complete. -/
theorem process_empty_input_index_error :
    verify_dimensions [] = true ∧
    ∀ rebin_time rebin_channel,
      processModel [] [] rebin_time rebin_channel = .error .indexError :=
  ⟨rfl, fun _ _ => rfl⟩

lemma npsort_eq_self {l : List Nat} (h : List.Pairwise (· < ·) l) :
    npsort l = l :=
  List.mergeSort_eq_self (h.imp fun hab => le_of_lt hab)

lemma pairwise_lt_range'_map_add (s n off : Nat) :
    List.Pairwise (· < ·) ((List.range' s n).map (fun c => c + off)) :=
  List.Pairwise.map _ (fun _ _ hab => by omega) (List.pairwise_lt_range' s n)

lemma npsort_range'_map (s n off : Nat) :
    npsort ((List.range' s n).map (fun c => c + off))
      = (List.range' s n).map (fun c => c + off) :=
  npsort_eq_self (pairwise_lt_range'_map_add s n off)

lemma getD_range'_map (s n off i : Nat) (hi : i < n) :
    ((List.range' s n).map (fun c => c + off)).getD i 0 = s + i + off := by
  have hlen : i < ((List.range' s n).map (fun c => c + off)).length := by
    simpa using hi
  rw [List.getD_eq_getElem _ _ hlen, List.getElem_map, List.getElem_range']
  omega

lemma determine_plane_u0 (crp i : Nat) (hi : i < 476) :
    determine_anode_plane (3072 * crp + i) = (crp * 2, 0, i) := by
  have hm : (3072 * crp + i) % 3072 = i := by omega
  have hd : (3072 * crp + i) / 3072 = crp := by omega
  simp only [determine_anode_plane, hm, hd]
  rw [if_pos hi]

lemma determine_plane_u1 (crp i : Nat) (hi : i < 476) :
    determine_anode_plane (3072 * crp + (476 + i)) = (crp * 2 + 1, 0, i) := by
  have hm : (3072 * crp + (476 + i)) % 3072 = 476 + i := by omega
  have hd : (3072 * crp + (476 + i)) / 3072 = crp := by omega
  simp only [determine_anode_plane, hm, hd]
  rw [if_neg (by omega), if_pos (by omega : 476 + i < 952)]
  simp [Prod.mk.injEq]

lemma determine_plane_v0 (crp i : Nat) (hi : i < 476) :
    determine_anode_plane (3072 * crp + (952 + i)) = (crp * 2, 1, i) := by
  have hm : (3072 * crp + (952 + i)) % 3072 = 952 + i := by omega
  have hd : (3072 * crp + (952 + i)) / 3072 = crp := by omega
  simp only [determine_anode_plane, hm, hd]
  rw [if_neg (by omega), if_neg (by omega), if_pos (by omega : 952 + i < 1428)]
  simp [Prod.mk.injEq]

lemma determine_plane_v1 (crp i : Nat) (hi : i < 476) :
    determine_anode_plane (3072 * crp + (1428 + i)) = (crp * 2 + 1, 1, i) := by
  have hm : (3072 * crp + (1428 + i)) % 3072 = 1428 + i := by omega
  have hd : (3072 * crp + (1428 + i)) / 3072 = crp := by omega
  simp only [determine_anode_plane, hm, hd]
  rw [if_neg (by omega), if_neg (by omega), if_neg (by omega),
    if_pos (by omega : 1428 + i < 1904)]
  simp [Prod.mk.injEq]

lemma determine_plane_w0 (crp i : Nat) (hi : i < 584) :
    determine_anode_plane (3072 * crp + (1904 + i)) = (crp * 2, 2, i) := by
  have hm : (3072 * crp + (1904 + i)) % 3072 = 1904 + i := by omega
  have hd : (3072 * crp + (1904 + i)) / 3072 = crp := by omega
  simp only [determine_anode_plane, hm, hd]
  rw [if_neg (by omega), if_neg (by omega), if_neg (by omega), if_neg (by omega),
    if_pos (by omega : 1904 + i < 2488)]
  simp [Prod.mk.injEq]

lemma determine_plane_w1 (crp i : Nat) (hi : i < 584) :
    determine_anode_plane (3072 * crp + (2488 + i)) = (crp * 2 + 1, 2, i) := by
  have hm : (3072 * crp + (2488 + i)) % 3072 = 2488 + i := by omega
  have hd : (3072 * crp + (2488 + i)) / 3072 = crp := by omega
  simp only [determine_anode_plane, hm, hd]
  rw [if_neg (by omega), if_neg (by omega), if_neg (by omega), if_neg (by omega),
    if_neg (by omega)]
  simp [Prod.mk.injEq]

lemma planes_even_eq (a : Nat) (h : a % 2 = 0) :
    get_anode_planes a 0 = (List.range' 0 476).map (fun c => c + 3072 * (a / 2)) ∧
    get_anode_planes a 1 = (List.range' 952 476).map (fun c => c + 3072 * (a / 2)) ∧
    get_anode_planes a 2 = (List.range' 1904 584).map (fun c => c + 3072 * (a / 2)) := by
  refine ⟨?_, ?_, ?_⟩ <;> simp [get_anode_planes, h, npsort_range'_map]

lemma planes_odd_eq (a : Nat) (h : a % 2 = 1) :
    get_anode_planes a 0 = (List.range' 476 475).map (fun c => c + 3072 * (a / 2)) ∧
    get_anode_planes a 1 = (List.range' 1428 475).map (fun c => c + 3072 * (a / 2)) ∧
    get_anode_planes a 2 = (List.range' 2488 583).map (fun c => c + 3072 * (a / 2)) := by
  refine ⟨?_, ?_, ?_⟩ <;> simp [get_anode_planes, h, npsort_range'_map]

/-- C3: for every anode in 0..7, plane in 0..2, and position `i` in the
(ascending, duplicate-free) plane channel list returned by
`get_anode_planes`, `determine_anode_plane` maps the channel at position `i`
back to exactly `(anode_id, plane_id, i)` — `i` being the channel's rank in
the sorted plane set. -/
theorem determine_inverts_get_anode_planes :
    ∀ a, a < 8 → ∀ p, p < 3 → ∀ i, i < (get_anode_planes a p).length →
      determine_anode_plane ((get_anode_planes a p).getD i 0) = (a, p, i) := by
  intro a _ha p hp i hi
  rcases Nat.mod_two_eq_zero_or_one a with hpar | hpar
  · have haeq : a / 2 * 2 = a := by omega
    obtain ⟨h0, h1, h2⟩ := planes_even_eq a hpar
    interval_cases p
    · rw [h0] at hi ⊢
      simp only [List.length_map, List.length_range'] at hi
      rw [getD_range'_map _ _ _ _ hi,
        (by ring : 0 + i + 3072 * (a / 2) = 3072 * (a / 2) + i),
        determine_plane_u0 (a / 2) i hi, haeq]
    · rw [h1] at hi ⊢
      simp only [List.length_map, List.length_range'] at hi
      rw [getD_range'_map _ _ _ _ hi,
        (by ring : 952 + i + 3072 * (a / 2) = 3072 * (a / 2) + (952 + i)),
        determine_plane_v0 (a / 2) i hi, haeq]
    · rw [h2] at hi ⊢
      simp only [List.length_map, List.length_range'] at hi
      rw [getD_range'_map _ _ _ _ hi,
        (by ring : 1904 + i + 3072 * (a / 2) = 3072 * (a / 2) + (1904 + i)),
        determine_plane_w0 (a / 2) i hi, haeq]
  · have haeq : a / 2 * 2 + 1 = a := by omega
    obtain ⟨h0, h1, h2⟩ := planes_odd_eq a hpar
    interval_cases p
    · rw [h0] at hi ⊢
      simp only [List.length_map, List.length_range'] at hi
      rw [getD_range'_map _ _ _ _ hi,
        (by ring : 476 + i + 3072 * (a / 2) = 3072 * (a / 2) + (476 + i)),
        determine_plane_u1 (a / 2) i (by omega), haeq]
    · rw [h1] at hi ⊢
      simp only [List.length_map, List.length_range'] at hi
      rw [getD_range'_map _ _ _ _ hi,
        (by ring : 1428 + i + 3072 * (a / 2) = 3072 * (a / 2) + (1428 + i)),
        determine_plane_v1 (a / 2) i (by omega), haeq]
    · rw [h2] at hi ⊢
      simp only [List.length_map, List.length_range'] at hi
      rw [getD_range'_map _ _ _ _ hi,
        (by ring : 2488 + i + 3072 * (a / 2) = 3072 * (a / 2) + (2488 + i)),
        determine_plane_w1 (a / 2) i (by omega), haeq]

/-- Witness for C3 at anode 0, plane 0, rank 0 (global channel 0). -/
theorem determine_inverts_get_anode_planes_witness :
    0 < 8 ∧ 0 < 3 ∧ 0 < (get_anode_planes 0 0).length ∧
    determine_anode_plane ((get_anode_planes 0 0).getD 0 0) = (0, 0, 0) := by
  have hlen : 0 < (get_anode_planes 0 0).length := by
    rw [(planes_even_eq 0 (by decide)).1]
    simp
  exact ⟨by decide, by decide, hlen,
    determine_inverts_get_anode_planes 0 (by decide) 0 (by decide) 0 hlen⟩

lemma channels_even_eq (a : Nat) (h : a % 2 = 0) :
    get_anode_channels a = cru0base.map (fun c => c + 3072 * (a / 2)) := by
  have hcrp : (a - a % 2) / 2 = a / 2 := by omega
  simp [get_anode_channels, h, hcrp]

lemma channels_odd_eq (a : Nat) (h : a % 2 = 1) :
    get_anode_channels a = cru1base.map (fun c => c + 3072 * (a / 2)) := by
  have hcrp : (a - 1) / 2 = a / 2 := by omega
  simp [get_anode_channels, h, hcrp]

/-- C9: for every odd anode in 0..7, the channels of `get_anode_channels`
missing from all three plane sets of `get_anode_planes` are exactly
`951 + 3072*(anode_id/2)`, `1903 + 3072*(anode_id/2)` and
`3071 + 3072*(anode_id/2)`; for every even anode the channel sequence and
the union of the three plane sets have the same elements; and every plane
channel always occurs in the anode's channel sequence. -/
theorem get_anode_channels_vs_planes :
    ∀ a, a < 8 →
      (a % 2 = 1 →
        ∀ x, (x ∈ get_anode_channels a ∧
              x ∉ get_anode_planes a 0 ∧ x ∉ get_anode_planes a 1 ∧
              x ∉ get_anode_planes a 2) ↔
             (x = 951 + 3072 * (a / 2) ∨ x = 1903 + 3072 * (a / 2) ∨
              x = 3071 + 3072 * (a / 2))) ∧
      (a % 2 = 0 →
        ∀ x, x ∈ get_anode_channels a ↔
             (x ∈ get_anode_planes a 0 ∨ x ∈ get_anode_planes a 1 ∨
              x ∈ get_anode_planes a 2)) ∧
      (∀ p, p < 3 → ∀ x, x ∈ get_anode_planes a p → x ∈ get_anode_channels a) := by
  intro a _ha
  refine ⟨?_, ?_, ?_⟩
  · intro hpar x
    obtain ⟨h0, h1, h2⟩ := planes_odd_eq a hpar
    rw [channels_odd_eq a hpar, h0, h1, h2]
    simp only [cru1base, List.mem_map, List.mem_append, List.mem_range'_1]
    constructor
    · rintro ⟨⟨k, hk, rfl⟩, hn0, hn1, hn2⟩
      rcases hk with (hk | hk) | hk
      · rcases Nat.lt_or_ge k 951 with hk9 | hk9
        · exact absurd ⟨k, by omega, rfl⟩ hn0
        · left; have : k = 951 := by omega
          rw [this]
      · rcases Nat.lt_or_ge k 1903 with hk9 | hk9
        · exact absurd ⟨k, by omega, rfl⟩ hn1
        · right; left; have : k = 1903 := by omega
          rw [this]
      · rcases Nat.lt_or_ge k 3071 with hk9 | hk9
        · exact absurd ⟨k, by omega, rfl⟩ hn2
        · right; right; have : k = 3071 := by omega
          rw [this]
    · rintro (rfl | rfl | rfl)
      · exact ⟨⟨951, by omega, rfl⟩,
          fun h => by obtain ⟨c, hc, hceq⟩ := h; omega,
          fun h => by obtain ⟨c, hc, hceq⟩ := h; omega,
          fun h => by obtain ⟨c, hc, hceq⟩ := h; omega⟩
      · exact ⟨⟨1903, by omega, rfl⟩,
          fun h => by obtain ⟨c, hc, hceq⟩ := h; omega,
          fun h => by obtain ⟨c, hc, hceq⟩ := h; omega,
          fun h => by obtain ⟨c, hc, hceq⟩ := h; omega⟩
      · exact ⟨⟨3071, by omega, rfl⟩,
          fun h => by obtain ⟨c, hc, hceq⟩ := h; omega,
          fun h => by obtain ⟨c, hc, hceq⟩ := h; omega,
          fun h => by obtain ⟨c, hc, hceq⟩ := h; omega⟩
  · intro hpar x
    obtain ⟨h0, h1, h2⟩ := planes_even_eq a hpar
    rw [channels_even_eq a hpar, h0, h1, h2]
    simp only [cru0base, List.mem_map, List.mem_append, List.mem_range'_1]
    constructor
    · rintro ⟨k, hk, rfl⟩
      rcases hk with (hk | hk) | hk
      · exact Or.inl ⟨k, by omega, rfl⟩
      · exact Or.inr (Or.inl ⟨k, by omega, rfl⟩)
      · exact Or.inr (Or.inr ⟨k, by omega, rfl⟩)
    · rintro (⟨k, hk, rfl⟩ | ⟨k, hk, rfl⟩ | ⟨k, hk, rfl⟩)
      · exact ⟨k, by omega, rfl⟩
      · exact ⟨k, by omega, rfl⟩
      · exact ⟨k, by omega, rfl⟩
  · intro p hp x hx
    rcases Nat.mod_two_eq_zero_or_one a with hpar | hpar
    · obtain ⟨h0, h1, h2⟩ := planes_even_eq a hpar
      rw [channels_even_eq a hpar]
      simp only [cru0base, List.mem_map, List.mem_append, List.mem_range'_1]
      interval_cases p
      · rw [h0] at hx
        simp only [List.mem_map, List.mem_range'_1] at hx
        obtain ⟨k, hk, rfl⟩ := hx
        exact ⟨k, by omega, rfl⟩
      · rw [h1] at hx
        simp only [List.mem_map, List.mem_range'_1] at hx
        obtain ⟨k, hk, rfl⟩ := hx
        exact ⟨k, by omega, rfl⟩
      · rw [h2] at hx
        simp only [List.mem_map, List.mem_range'_1] at hx
        obtain ⟨k, hk, rfl⟩ := hx
        exact ⟨k, by omega, rfl⟩
    · obtain ⟨h0, h1, h2⟩ := planes_odd_eq a hpar
      rw [channels_odd_eq a hpar]
      simp only [cru1base, List.mem_map, List.mem_append, List.mem_range'_1]
      interval_cases p
      · rw [h0] at hx
        simp only [List.mem_map, List.mem_range'_1] at hx
        obtain ⟨k, hk, rfl⟩ := hx
        exact ⟨k, by omega, rfl⟩
      · rw [h1] at hx
        simp only [List.mem_map, List.mem_range'_1] at hx
        obtain ⟨k, hk, rfl⟩ := hx
        exact ⟨k, by omega, rfl⟩
      · rw [h2] at hx
        simp only [List.mem_map, List.mem_range'_1] at hx
        obtain ⟨k, hk, rfl⟩ := hx
        exact ⟨k, by omega, rfl⟩

/-- Witness for C9 at anode 1 and channel 951. -/
theorem get_anode_channels_vs_planes_witness :
    1 < 8 ∧
    ((951 ∈ get_anode_channels 1 ∧
      951 ∉ get_anode_planes 1 0 ∧ 951 ∉ get_anode_planes 1 1 ∧
      951 ∉ get_anode_planes 1 2) ↔
     (951 = 951 + 3072 * (1 / 2) ∨ 951 = 1903 + 3072 * (1 / 2) ∨
      951 = 3071 + 3072 * (1 / 2))) :=
  ⟨by decide, ((get_anode_channels_vs_planes 1 (by decide)).1 (by decide)) 951⟩

lemma binContributions_eq_spec (data_1st data_2nd charge_1st charge_2nd : Arr2)
    (rebin_time rebin_channel i j : Nat)
    (hi : i < data_1st.nrows / rebin_channel)
    (hj : j < data_1st.ncols / rebin_time) :
    binContributions data_1st data_2nd charge_1st charge_2nd
        rebin_time rebin_channel i j
      = spec_block_pairs data_1st data_2nd charge_1st charge_2nd
          rebin_time rebin_channel i j := by
  have h3 : i * rebin_channel + rebin_channel ≤ data_1st.nrows :=
    calc i * rebin_channel + rebin_channel = (i + 1) * rebin_channel := by ring
      _ ≤ (data_1st.nrows / rebin_channel) * rebin_channel :=
          Nat.mul_le_mul_right rebin_channel (Nat.succ_le_of_lt hi)
      _ ≤ data_1st.nrows := Nat.div_mul_le_self data_1st.nrows rebin_channel
  have h4 : j * rebin_time + rebin_time ≤ data_1st.ncols :=
    calc j * rebin_time + rebin_time = (j + 1) * rebin_time := by ring
      _ ≤ (data_1st.ncols / rebin_time) * rebin_time :=
          Nat.mul_le_mul_right rebin_time (Nat.succ_le_of_lt hj)
      _ ≤ data_1st.ncols := Nat.div_mul_le_self data_1st.ncols rebin_time
  have h1 : min (i * rebin_channel + rebin_channel) data_1st.nrows
      - i * rebin_channel = rebin_channel := by
    rw [Nat.min_eq_left h3]; omega
  have h2 : min (j * rebin_time + rebin_time) data_1st.ncols
      - j * rebin_time = rebin_time := by
    rw [Nat.min_eq_left h4]; omega
  simp only [binContributions, spec_block_pairs, h1, h2]

/-- C1: for same-shaped inputs, positive factors, and every in-range output
bin, `rebin_track_first_second` equals the spec-side description: collect the
positive-charge `(charge, label)` pairs of the bin's block from both arrays,
sort by charge descending (stably), output the first and second labels with
default `0`; in particular an all-zero-charge block yields `(0, 0)` and a
block whose collected pair list is a single pair yields `(label, 0)`. -/
theorem rebin_track_first_second_matches_spec
    (data_1st data_2nd charge_1st charge_2nd : Arr2)
    (rebin_time rebin_channel : Nat)
    (_ht : 0 < rebin_time) (_hc : 0 < rebin_channel) (i j : Nat)
    (hi : i < data_1st.nrows / rebin_channel)
    (hj : j < data_1st.ncols / rebin_time) :
    ((rebin_track_first_second data_1st data_2nd charge_1st charge_2nd
        rebin_time rebin_channel).1.entry i j
      = firstLabel (sortByChargeDesc (spec_block_pairs data_1st data_2nd
          charge_1st charge_2nd rebin_time rebin_channel i j)) ∧
     (rebin_track_first_second data_1st data_2nd charge_1st charge_2nd
        rebin_time rebin_channel).2.entry i j
      = secondLabel (sortByChargeDesc (spec_block_pairs data_1st data_2nd
          charge_1st charge_2nd rebin_time rebin_channel i j))) ∧
    ((∀ ch tick, i * rebin_channel ≤ ch → ch < i * rebin_channel + rebin_channel →
        j * rebin_time ≤ tick → tick < j * rebin_time + rebin_time →
        charge_1st.entry ch tick = 0 ∧ charge_2nd.entry ch tick = 0) →
      (rebin_track_first_second data_1st data_2nd charge_1st charge_2nd
          rebin_time rebin_channel).1.entry i j = 0 ∧
      (rebin_track_first_second data_1st data_2nd charge_1st charge_2nd
          rebin_time rebin_channel).2.entry i j = 0) ∧
    (∀ q lab, spec_block_pairs data_1st data_2nd charge_1st charge_2nd
        rebin_time rebin_channel i j = [(q, lab)] →
      (rebin_track_first_second data_1st data_2nd charge_1st charge_2nd
          rebin_time rebin_channel).1.entry i j = lab ∧
      (rebin_track_first_second data_1st data_2nd charge_1st charge_2nd
          rebin_time rebin_channel).2.entry i j = 0) := by
  have hbin := binContributions_eq_spec data_1st data_2nd charge_1st charge_2nd
    rebin_time rebin_channel i j hi hj
  have e1 : (rebin_track_first_second data_1st data_2nd charge_1st charge_2nd
      rebin_time rebin_channel).1.entry i j
      = firstLabel (sortByChargeDesc (binContributions data_1st data_2nd
          charge_1st charge_2nd rebin_time rebin_channel i j)) := rfl
  have e2 : (rebin_track_first_second data_1st data_2nd charge_1st charge_2nd
      rebin_time rebin_channel).2.entry i j
      = secondLabel (sortByChargeDesc (binContributions data_1st data_2nd
          charge_1st charge_2nd rebin_time rebin_channel i j)) := rfl
  rw [e1, e2, hbin]
  refine ⟨⟨rfl, rfl⟩, ?_, ?_⟩
  · intro hzero
    have hnil : spec_block_pairs data_1st data_2nd charge_1st charge_2nd
        rebin_time rebin_channel i j = [] := by
      rw [spec_block_pairs]
      apply List.flatMap_eq_nil_iff.mpr
      intro ch hch
      apply List.flatMap_eq_nil_iff.mpr
      intro tick htick
      rw [List.mem_range'_1] at hch htick
      obtain ⟨hz1, hz2⟩ := hzero ch tick hch.1 hch.2 htick.1 htick.2
      rw [hz1, hz2]
      simp
    rw [hnil]
    constructor <;>
      simp [sortByChargeDesc, List.mergeSort_nil, firstLabel, secondLabel]
  · intro q lab hsingle
    rw [hsingle]
    constructor <;>
      simp [sortByChargeDesc, List.mergeSort_singleton, firstLabel, secondLabel]

/-- The `data_1st` label frame of the spec's end-to-end top-2 scenario:
`[[7, 0], [0, 9]]`. -/
def witLabel1 : Arr2 :=
  { nrows := 2, ncols := 2,
    entry := fun i j =>
      if i = 0 ∧ j = 0 then 7 else if i = 1 ∧ j = 1 then 9 else 0 }

/-- The `charge_1st` frame of the spec's end-to-end top-2 scenario:
`[[5, 0], [0, 3]]`. -/
def witCharge1 : Arr2 :=
  { nrows := 2, ncols := 2,
    entry := fun i j =>
      if i = 0 ∧ j = 0 then 5 else if i = 1 ∧ j = 1 then 3 else 0 }

/-- An all-zero 2×2 frame. -/
def zeroFrame22 : Arr2 := { nrows := 2, ncols := 2, entry := fun _ _ => 0 }

/-- Witness for C1 at the spec's end-to-end top-2 scenario, bin (0, 0). -/
theorem rebin_track_first_second_matches_spec_witness :
    (0 < 2 ∧ 0 < witLabel1.nrows / 2 ∧ 0 < witLabel1.ncols / 2) ∧
    (((rebin_track_first_second witLabel1 zeroFrame22 witCharge1 zeroFrame22
        2 2).1.entry 0 0
      = firstLabel (sortByChargeDesc (spec_block_pairs witLabel1 zeroFrame22
          witCharge1 zeroFrame22 2 2 0 0)) ∧
     (rebin_track_first_second witLabel1 zeroFrame22 witCharge1 zeroFrame22
        2 2).2.entry 0 0
      = secondLabel (sortByChargeDesc (spec_block_pairs witLabel1 zeroFrame22
          witCharge1 zeroFrame22 2 2 0 0))) ∧
    ((∀ ch tick, 0 * 2 ≤ ch → ch < 0 * 2 + 2 → 0 * 2 ≤ tick → tick < 0 * 2 + 2 →
        witCharge1.entry ch tick = 0 ∧ zeroFrame22.entry ch tick = 0) →
      (rebin_track_first_second witLabel1 zeroFrame22 witCharge1 zeroFrame22
          2 2).1.entry 0 0 = 0 ∧
      (rebin_track_first_second witLabel1 zeroFrame22 witCharge1 zeroFrame22
          2 2).2.entry 0 0 = 0) ∧
    (∀ q lab, spec_block_pairs witLabel1 zeroFrame22 witCharge1 zeroFrame22
        2 2 0 0 = [(q, lab)] →
      (rebin_track_first_second witLabel1 zeroFrame22 witCharge1 zeroFrame22
          2 2).1.entry 0 0 = lab ∧
      (rebin_track_first_second witLabel1 zeroFrame22 witCharge1 zeroFrame22
          2 2).2.entry 0 0 = 0)) :=
  ⟨⟨by decide, by decide, by decide⟩,
    rebin_track_first_second_matches_spec witLabel1 zeroFrame22 witCharge1
      zeroFrame22 2 2 (by decide) (by decide) 0 0 (by decide) (by decide)⟩

/-- An all-zero 3×3 frame (shape-mismatch test input). -/
def zeroFrame33 : Arr2 := { nrows := 3, ncols := 3, entry := fun _ _ => 0 }

lemma except_bind_ok {α β : Type} (a : α) (f : α → Except ProcError β) :
    (Except.ok a >>= f) = f a := rfl

lemma except_bind_err {α β : Type} (e : ProcError) (f : α → Except ProcError β) :
    ((Except.error e : Except ProcError α) >>= f) = Except.error e := rfl

lemma sliceRowsE_ok {a : Arr2} {chans : List Nat}
    (h : ∀ c ∈ chans, c < a.nrows) :
    sliceRowsE a chans = Except.ok (sliceRows a chans) := by
  rw [sliceRowsE, if_pos h]

lemma sliceRowsE_err {a : Arr2} {chans : List Nat}
    (h : ¬ ∀ c ∈ chans, c < a.nrows) :
    sliceRowsE a chans = Except.error .indexError := by
  rw [sliceRowsE, if_neg h]

lemma firstMismatch_some_of_acc (l : List (String × Arr2)) :
    ∀ (s : Nat × Nat) (n : String) (got exp : Nat × Nat),
      firstMismatch (some s) l = some (n, got, exp) →
      exp = s ∧ got ≠ s ∧ ∃ d, (n, d) ∈ l ∧ d.shape = got := by
  induction l with
  | nil =>
    intro s n got exp h
    simp [firstMismatch] at h
  | cons f rest ih =>
    obtain ⟨m, d⟩ := f
    intro s n got exp h
    by_cases hs : d.shape = s
    · rw [show firstMismatch (some s) ((m, d) :: rest)
          = if d.shape = s then firstMismatch (some s) rest
            else some (m, d.shape, s) from rfl, if_pos hs] at h
      obtain ⟨hexp, hgot, d', hd, hds⟩ := ih s n got exp h
      exact ⟨hexp, hgot, d', List.mem_cons_of_mem _ hd, hds⟩
    · rw [show firstMismatch (some s) ((m, d) :: rest)
          = if d.shape = s then firstMismatch (some s) rest
            else some (m, d.shape, s) from rfl, if_neg hs] at h
      obtain ⟨hn, hgot, hexp⟩ : m = n ∧ d.shape = got ∧ s = exp := by
        have := Option.some.inj h
        exact ⟨congrArg Prod.fst this,
          congrArg Prod.fst (congrArg Prod.snd this),
          congrArg Prod.snd (congrArg Prod.snd this)⟩
      subst hn
      subst hgot
      subst hexp
      exact ⟨rfl, hs, d, List.mem_cons_self _ _, rfl⟩

lemma firstMismatch_none_case (l : List (String × Arr2)) (n : String)
    (got exp : Nat × Nat) :
    firstMismatch none l = some (n, got, exp) →
    ∃ f rest, l = f :: rest ∧ exp = (f.2).shape ∧ got ≠ exp ∧
      ∃ d, (n, d) ∈ l ∧ d.shape = got := by
  cases l with
  | nil => intro h; simp [firstMismatch] at h
  | cons f rest =>
    obtain ⟨m, d⟩ := f
    intro h
    rw [show firstMismatch none ((m, d) :: rest)
        = firstMismatch (some d.shape) rest from rfl] at h
    obtain ⟨hexp, hgot, d', hd, hds⟩ := firstMismatch_some_of_acc rest _ n got exp h
    subst hexp
    exact ⟨(m, d), rest, rfl, rfl, hgot, d', List.mem_cons_of_mem _ hd, hds⟩

lemma verifyLoop_eq_isNone (l : List (String × Arr2)) :
    ∀ acc, verifyLoop acc l = (firstMismatch acc l).isNone := by
  induction l with
  | nil => intro acc; cases acc <;> rfl
  | cons f rest ih =>
    obtain ⟨m, d⟩ := f
    intro acc
    cases acc with
    | none => exact ih (some d.shape)
    | some s =>
      by_cases hs : d.shape = s
      · rw [show verifyLoop (some s) ((m, d) :: rest)
            = if d.shape = s then verifyLoop (some s) rest else false from rfl,
          show firstMismatch (some s) ((m, d) :: rest)
            = if d.shape = s then firstMismatch (some s) rest
              else some (m, d.shape, s) from rfl, if_pos hs, if_pos hs]
        exact ih (some s)
      · rw [show verifyLoop (some s) ((m, d) :: rest)
            = if d.shape = s then verifyLoop (some s) rest else false from rfl,
          show firstMismatch (some s) ((m, d) :: rest)
            = if d.shape = s then firstMismatch (some s) rest
              else some (m, d.shape, s) from rfl, if_neg hs, if_neg hs]
        rfl

lemma processModel_eq_processAll (rec tru : Frames) (rebin_time rebin_channel : Nat)
    (hm : firstMismatch none (mergeFrames rec tru) = none)
    (hne : mergeFrames rec tru ≠ []) :
    processModel rec tru rebin_time rebin_channel
      = processAll rec tru rebin_time rebin_channel := by
  rcases hmerge : mergeFrames rec tru with _ | ⟨f, rest⟩
  · exact absurd hmerge hne
  · rw [hmerge] at hm
    simp only [processModel, hmerge, hm]

lemma processAll_ok_nil (rec tru : Frames) (rebin_time rebin_channel : Nat)
    (h : ∀ a p, processPlane rec tru rebin_time rebin_channel a p = Except.ok []) :
    processAll rec tru rebin_time rebin_channel = Except.ok [] := by
  have h8 : List.range 8 = [0, 1, 2, 3, 4, 5, 6, 7] := rfl
  have h3 : List.range 3 = [0, 1, 2] := rfl
  simp only [processAll, h8, h3, List.foldlM_cons, List.foldlM_nil, h,
    except_bind_ok, List.append_nil, List.nil_append]
  rfl

lemma processAll_err_first (rec tru : Frames) (rebin_time rebin_channel : Nat)
    (e : ProcError)
    (h : processPlane rec tru rebin_time rebin_channel 0 0 = Except.error e) :
    processAll rec tru rebin_time rebin_channel = Except.error e := by
  have h8 : List.range 8 = [0, 1, 2, 3, 4, 5, 6, 7] := rfl
  have h3 : List.range 3 = [0, 1, 2] := rfl
  simp only [processAll, h8, h3, List.foldlM_cons, List.foldlM_nil, h,
    except_bind_ok, except_bind_err]

lemma processPlane_ok_nil (rec tru : Frames) (rebin_time rebin_channel a p : Nat)
    (hg : lookupF rec "frame_gauss" = none)
    (h1 : lookupF tru "orig_trackid_1st" = none)
    (h2 : lookupF tru "orig_pid_1st" = none)
    (h3 : lookupF tru "current_pid_1st" = none)
    (h4 : lookupF tru "charge_1st" = none) :
    processPlane rec tru rebin_time rebin_channel a p = Except.ok [] := by
  have e1 : ("orig_trackid" ++ "_1st" : String) = "orig_trackid_1st" := rfl
  have e2 : ("orig_pid" ++ "_1st" : String) = "orig_pid_1st" := rfl
  have e3 : ("current_pid" ++ "_1st" : String) = "current_pid_1st" := rfl
  simp only [processPlane, processGauss, processKind, processCharge,
    e1, e2, e3, hg, h1, h2, h3, h4, except_bind_ok, List.append_nil,
    List.nil_append]

/-- C6 counterexample: the two collections hold frames of different shapes
under the same name `x`; the Python dict merge `{**frames_rec, **frames_tru}`
keeps only the `tru` copy, so `process` succeeds with an empty output mapping
instead of failing with a shape mismatch. -/
theorem process_shadowed_mismatch_not_detected :
    zeroFrame22.shape ≠ zeroFrame33.shape ∧
    processModel [("x", zeroFrame22)] [("x", zeroFrame33)] 2 2
      = Except.ok [] := by
  exact ⟨by decide, rfl⟩

/-- C6 as amended: if two frames of the *merged* collection (a `tru` frame
replaces a same-named `rec` frame before checking) disagree in shape, then
`process` aborts before any aggregation, reporting the first offending
frame's name, its shape, and the expected shape (the shape of the first
merged frame), and `verify_dimensions` is false on the merged collection. -/
theorem process_shape_mismatch_aborts (rec tru : Frames)
    (rebin_time rebin_channel : Nat) (n : String) (got exp : Nat × Nat)
    (h : firstMismatch none (mergeFrames rec tru) = some (n, got, exp)) :
    processModel rec tru rebin_time rebin_channel
      = Except.error (.shapeMismatch n got exp) ∧
    verify_dimensions (mergeFrames rec tru) = false ∧
    got ≠ exp ∧
    (∃ d, (n, d) ∈ mergeFrames rec tru ∧ d.shape = got) ∧
    (∃ f rest, mergeFrames rec tru = f :: rest ∧ exp = (f.2).shape) := by
  obtain ⟨f, rest, hcons, hexp, hgot, d, hd, hds⟩ :=
    firstMismatch_none_case _ n got exp h
  refine ⟨?_, ?_, hgot, ⟨d, hd, hds⟩, ⟨f, rest, hcons, hexp⟩⟩
  · simp only [processModel, h]
  · rw [verify_dimensions, verifyLoop_eq_isNone _ none, h]
    rfl

/-- Witness for the amended C6: a two-frame collection whose second frame has
shape (3,3) against expected (2,2). -/
theorem process_shape_mismatch_aborts_witness :
    processModel [("p", zeroFrame22), ("q", zeroFrame33)] [] 2 2
      = Except.error (.shapeMismatch "q" (3, 3) (2, 2)) ∧
    verify_dimensions (mergeFrames [("p", zeroFrame22), ("q", zeroFrame33)] [])
      = false ∧
    ((3, 3) : Nat × Nat) ≠ (2, 2) ∧
    (∃ d, ("q", d) ∈ mergeFrames [("p", zeroFrame22), ("q", zeroFrame33)] [] ∧
      d.shape = (3, 3)) ∧
    (∃ f rest, mergeFrames [("p", zeroFrame22), ("q", zeroFrame33)] []
      = f :: rest ∧ (2, 2) = (f.2).shape) :=
  process_shape_mismatch_aborts [("p", zeroFrame22), ("q", zeroFrame33)] []
    2 2 "q" (3, 3) (2, 2) rfl

/-- C7 counterexample: with both rebin factors 0 (non-positive) and an input
collection with no recognised frame kinds, `process` runs to completion and
returns successfully — no `InvalidFactorError`-style rejection exists. -/
theorem process_zero_factors_not_rejected :
    processModel [("y", zeroFrame22)] [] 0 0 = Except.ok [] := rfl

/-- C7 as amended: neither `FrameRebinner.__init__` nor `process` validates
the rebin factors.  For *any* factors, including 0, a shape-consistent
non-empty input with no recognised frame kinds is processed through all
anodes and returns successfully; a failure from a zero factor could only
arise later, as a `ZeroDivisionError` inside anode processing. -/
theorem process_no_factor_validation (rec tru : Frames)
    (rebin_time rebin_channel : Nat)
    (hg : lookupF rec "frame_gauss" = none)
    (h1 : lookupF tru "orig_trackid_1st" = none)
    (h2 : lookupF tru "orig_pid_1st" = none)
    (h3 : lookupF tru "current_pid_1st" = none)
    (h4 : lookupF tru "charge_1st" = none)
    (hm : firstMismatch none (mergeFrames rec tru) = none)
    (hne : mergeFrames rec tru ≠ []) :
    processModel rec tru rebin_time rebin_channel = Except.ok [] := by
  rw [processModel_eq_processAll rec tru rebin_time rebin_channel hm hne]
  exact processAll_ok_nil _ _ _ _
    (fun a p => processPlane_ok_nil rec tru _ _ a p hg h1 h2 h3 h4)

/-- Witness for the amended C7 at factors 0, 0. -/
theorem process_no_factor_validation_witness :
    processModel [("z", zeroFrame33)] [] 0 0 = Except.ok [] :=
  process_no_factor_validation [("z", zeroFrame33)] [] 0 0 rfl rfl rfl rfl rfl
    rfl
    (by rw [show mergeFrames [("z", zeroFrame33)] [] = [("z", zeroFrame33)]
          from rfl]
        exact List.cons_ne_nil _ _)

/-- C8 counterexample: a collection holding `orig_trackid_1st` but no
`charge_1st` (an incomplete quadruple) makes `process` abort with a
`KeyError` on `charge_1st` — a missing quadruple member does cause the run
to abort. -/
theorem process_incomplete_quadruple_keyerror :
    processModel [] [("orig_trackid_1st", zeroFrame22)] 2 2
      = Except.error (.keyError "charge_1st") := rfl

/-- C8 as amended: a label kind is skipped (non-fatally) exactly when its
`{kind}_1st` frame is absent; when `{kind}_1st` is present the quadruple
members are fetched and row-sliced in source order (`charge_1st`,
`charge_2nd`, `{kind}_1st`, `{kind}_2nd`), a missing member aborts the run
with a `KeyError` naming it, an out-of-range plane channel aborts with an
`IndexError` at the slice, and a kind is aggregated — both outputs stored
under `anode{A}_plane{P}_{kind}_1st/_2nd` — only when the full matched
quadruple is present, all plane channels are in range, and the factors are
positive.  (The pipeline only prints the names of the frames it loaded; it
reports no found-versus-expected comparison.) -/
theorem process_kind_gating (rec tru : Frames)
    (rebin_time rebin_channel : Nat) (d1 : Arr2)
    (hg : lookupF rec "frame_gauss" = none)
    (h1 : lookupF tru "orig_trackid_1st" = some d1)
    (hc1 : lookupF tru "charge_1st" = none)
    (hm : firstMismatch none (mergeFrames rec tru) = none)
    (hne : mergeFrames rec tru ≠ []) :
    processModel rec tru rebin_time rebin_channel
      = Except.error (.keyError "charge_1st") ∧
    (∀ (tru2 : Frames) (kind : String) (rt2 rc2 : Nat) (chans : List Nat)
        (planeKey : String),
      lookupF tru2 (kind ++ "_1st") = none →
      processKind tru2 kind rt2 rc2 chans planeKey = Except.ok []) ∧
    (∀ (tru2 : Frames) (kind : String) (rt2 rc2 : Nat) (chans : List Nat)
        (planeKey : String) (e1 g1 : Arr2),
      lookupF tru2 (kind ++ "_1st") = some e1 →
      lookupF tru2 "charge_1st" = some g1 →
      (∀ c ∈ chans, c < g1.nrows) →
      lookupF tru2 "charge_2nd" = none →
      processKind tru2 kind rt2 rc2 chans planeKey
        = Except.error (.keyError "charge_2nd")) ∧
    (∀ (tru2 : Frames) (kind : String) (rt2 rc2 : Nat) (chans : List Nat)
        (planeKey : String) (e1 g1 g2 : Arr2),
      lookupF tru2 (kind ++ "_1st") = some e1 →
      lookupF tru2 "charge_1st" = some g1 →
      lookupF tru2 "charge_2nd" = some g2 →
      (∀ c ∈ chans, c < g1.nrows) →
      (∀ c ∈ chans, c < g2.nrows) →
      (∀ c ∈ chans, c < e1.nrows) →
      lookupF tru2 (kind ++ "_2nd") = none →
      processKind tru2 kind rt2 rc2 chans planeKey
        = Except.error (.keyError (kind ++ "_2nd"))) ∧
    (∀ (tru2 : Frames) (kind : String) (rt2 rc2 : Nat) (chans : List Nat)
        (planeKey : String) (e1 g1 : Arr2),
      lookupF tru2 (kind ++ "_1st") = some e1 →
      lookupF tru2 "charge_1st" = some g1 →
      ¬ (∀ c ∈ chans, c < g1.nrows) →
      processKind tru2 kind rt2 rc2 chans planeKey
        = Except.error .indexError) ∧
    (∀ (tru2 : Frames) (kind : String) (rt2 rc2 : Nat) (chans : List Nat)
        (planeKey : String) (e1 g1 g2 e2 : Arr2),
      lookupF tru2 (kind ++ "_1st") = some e1 →
      lookupF tru2 "charge_1st" = some g1 →
      lookupF tru2 "charge_2nd" = some g2 →
      lookupF tru2 (kind ++ "_2nd") = some e2 →
      (∀ c ∈ chans, c < g1.nrows) →
      (∀ c ∈ chans, c < g2.nrows) →
      (∀ c ∈ chans, c < e1.nrows) →
      (∀ c ∈ chans, c < e2.nrows) →
      0 < rt2 → 0 < rc2 →
      processKind tru2 kind rt2 rc2 chans planeKey
        = Except.ok
            [(planeKey ++ "_" ++ kind ++ "_1st",
              (rebin_track_first_second (sliceRows e1 chans)
                (sliceRows e2 chans) (sliceRows g1 chans) (sliceRows g2 chans)
                rt2 rc2).1),
             (planeKey ++ "_" ++ kind ++ "_2nd",
              (rebin_track_first_second (sliceRows e1 chans)
                (sliceRows e2 chans) (sliceRows g1 chans) (sliceRows g2 chans)
                rt2 rc2).2)]) := by
  refine ⟨?_, ?_, ?_, ?_, ?_, ?_⟩
  · have ea : ("orig_trackid" ++ "_1st" : String) = "orig_trackid_1st" := rfl
    have hplane : processPlane rec tru rebin_time rebin_channel 0 0
        = Except.error (.keyError "charge_1st") := by
      simp only [processPlane, processGauss, processKind, getFrame, ea, hg,
        h1, hc1, except_bind_ok, except_bind_err]
    rw [processModel_eq_processAll rec tru rebin_time rebin_channel hm hne]
    exact processAll_err_first _ _ _ _ _ hplane
  · intro tru2 kind rt2 rc2 chans planeKey hnone
    simp only [processKind, hnone]
  · intro tru2 kind rt2 rc2 chans planeKey e1 g1 h1a hg1 hr1 hg2
    simp only [processKind, getFrame, h1a, hg1, sliceRowsE_ok hr1, hg2,
      except_bind_ok, except_bind_err]
  · intro tru2 kind rt2 rc2 chans planeKey e1 g1 g2 h1a hg1 hg2 hr1 hr2 hre1 h2a
    simp only [processKind, getFrame, h1a, hg1, hg2, sliceRowsE_ok hr1,
      sliceRowsE_ok hr2, sliceRowsE_ok hre1, h2a, except_bind_ok,
      except_bind_err]
  · intro tru2 kind rt2 rc2 chans planeKey e1 g1 h1a hg1 hr
    simp only [processKind, getFrame, h1a, hg1, sliceRowsE_err hr,
      except_bind_ok, except_bind_err]
  · intro tru2 kind rt2 rc2 chans planeKey e1 g1 g2 e2 h1a hg1 hg2 h2a hr1 hr2
      hre1 hre2 hrt hrc
    simp only [processKind, getFrame, h1a, hg1, hg2, h2a, sliceRowsE_ok hr1,
      sliceRowsE_ok hr2, sliceRowsE_ok hre1, sliceRowsE_ok hre2,
      except_bind_ok, except_bind_err]
    rw [if_neg (by omega)]

/-- Witness for the amended C8: `orig_trackid_1st` present, `charge_1st`
absent. -/
theorem process_kind_gating_witness :
    (processModel [] [("orig_trackid_1st", zeroFrame22)] 2 2
      = Except.error (.keyError "charge_1st") ∧
    (∀ (tru2 : Frames) (kind : String) (rt2 rc2 : Nat) (chans : List Nat)
        (planeKey : String),
      lookupF tru2 (kind ++ "_1st") = none →
      processKind tru2 kind rt2 rc2 chans planeKey = Except.ok []) ∧
    (∀ (tru2 : Frames) (kind : String) (rt2 rc2 : Nat) (chans : List Nat)
        (planeKey : String) (e1 g1 : Arr2),
      lookupF tru2 (kind ++ "_1st") = some e1 →
      lookupF tru2 "charge_1st" = some g1 →
      (∀ c ∈ chans, c < g1.nrows) →
      lookupF tru2 "charge_2nd" = none →
      processKind tru2 kind rt2 rc2 chans planeKey
        = Except.error (.keyError "charge_2nd")) ∧
    (∀ (tru2 : Frames) (kind : String) (rt2 rc2 : Nat) (chans : List Nat)
        (planeKey : String) (e1 g1 g2 : Arr2),
      lookupF tru2 (kind ++ "_1st") = some e1 →
      lookupF tru2 "charge_1st" = some g1 →
      lookupF tru2 "charge_2nd" = some g2 →
      (∀ c ∈ chans, c < g1.nrows) →
      (∀ c ∈ chans, c < g2.nrows) →
      (∀ c ∈ chans, c < e1.nrows) →
      lookupF tru2 (kind ++ "_2nd") = none →
      processKind tru2 kind rt2 rc2 chans planeKey
        = Except.error (.keyError (kind ++ "_2nd"))) ∧
    (∀ (tru2 : Frames) (kind : String) (rt2 rc2 : Nat) (chans : List Nat)
        (planeKey : String) (e1 g1 : Arr2),
      lookupF tru2 (kind ++ "_1st") = some e1 →
      lookupF tru2 "charge_1st" = some g1 →
      ¬ (∀ c ∈ chans, c < g1.nrows) →
      processKind tru2 kind rt2 rc2 chans planeKey
        = Except.error .indexError) ∧
    (∀ (tru2 : Frames) (kind : String) (rt2 rc2 : Nat) (chans : List Nat)
        (planeKey : String) (e1 g1 g2 e2 : Arr2),
      lookupF tru2 (kind ++ "_1st") = some e1 →
      lookupF tru2 "charge_1st" = some g1 →
      lookupF tru2 "charge_2nd" = some g2 →
      lookupF tru2 (kind ++ "_2nd") = some e2 →
      (∀ c ∈ chans, c < g1.nrows) →
      (∀ c ∈ chans, c < g2.nrows) →
      (∀ c ∈ chans, c < e1.nrows) →
      (∀ c ∈ chans, c < e2.nrows) →
      0 < rt2 → 0 < rc2 →
      processKind tru2 kind rt2 rc2 chans planeKey
        = Except.ok
            [(planeKey ++ "_" ++ kind ++ "_1st",
              (rebin_track_first_second (sliceRows e1 chans)
                (sliceRows e2 chans) (sliceRows g1 chans) (sliceRows g2 chans)
                rt2 rc2).1),
             (planeKey ++ "_" ++ kind ++ "_2nd",
              (rebin_track_first_second (sliceRows e1 chans)
                (sliceRows e2 chans) (sliceRows g1 chans) (sliceRows g2 chans)
                rt2 rc2).2)])) :=
  process_kind_gating [] [("orig_trackid_1st", zeroFrame22)] 2 2 zeroFrame22
    rfl rfl rfl rfl
    (by rw [show mergeFrames [] [("orig_trackid_1st", zeroFrame22)]
          = [("orig_trackid_1st", zeroFrame22)] from rfl]
        exact List.cons_ne_nil _ _)
